import Mathlib

/-!
Verification of the mcp-gopls tool layer: a shallow embedding of
`pkg/tools/testing.go`, `pkg/tools/notifications.go` and `cmd/mcp-gopls/main.go`
(the lifecycle controller), with theorems settling the behavioural claims of
the specification.

External effects (filesystem reads, process execution, notification delivery)
are modelled by oracle parameters describing the outcome the environment would
produce, and the functions additionally return a trace of the effects performed,
so that control-flow properties (which steps ran, what was cleaned up) become
statements about the trace.
-/

/-! ## Go string primitives used by the code (`strings.ToLower`,
`strings.TrimSpace`, `strings.HasSuffix`), embedded over `List Char`. -/

/-- Embeds `strings.ToLower` (the code only ever compares against ASCII
keywords, so ASCII lowering is the relevant fragment). -/
def goToLower (s : String) : String :=
  String.mk (s.data.map Char.toLower)

/-- Whitespace recognised by Go's `unicode.IsSpace` in the Latin-1 range,
as used by `strings.TrimSpace`. -/
def isGoSpace (c : Char) : Bool :=
  c = ' ' || c = '\t' || c = '\n' || c = '\r' ||
    c.toNat = 11 || c.toNat = 12 || c.toNat = 133 || c.toNat = 160

/-- Embeds `strings.TrimSpace`: drop leading and trailing whitespace. -/
def goTrimSpace (s : String) : String :=
  String.mk (((s.data.dropWhile isGoSpace).reverse.dropWhile isGoSpace).reverse)

/-- Embeds `strings.HasSuffix s suf` a.k.a. `s.endsWith suf`. -/
def goHasSuffix (s suf : String) : Bool :=
  let n := s.data.length
  let m := suf.data.length
  decide (m ≤ n) && s.data.drop (n - m) == suf.data

/-! ## Go error values

The code distinguishes error values only through `errors.As(err, *exec.ExitError)`
(`isExitSuccess`): an error chain that contains an `exec.ExitError` means the
external process ran to completion with a non-zero status; any other non-nil
error means the process could not be executed (or an os-level failure such as
temp-file creation). A nil Go error is `Option.none` at use sites. -/

inductive GoError : Type
  /-- the error chain contains an `exec.ExitError`: process completed, non-zero status -/
  | exitErr : GoError
  /-- failure to start or execute the process at all -/
  | execErr : GoError
  /-- an os-level error (e.g. from `os.CreateTemp` or `os.ReadDir`) -/
  | osErr : GoError
deriving DecidableEq, Repr

/-- Embeds `isExitSuccess` (testing.go:148-151): true iff the error chain
contains an `exec.ExitError`. -/
def isExitSuccess : GoError → Bool
  | GoError.exitErr => true
  | GoError.execErr => false
  | GoError.osErr => false

/-- The guard `err != nil && !isExitSuccess(err)` used at every command
call site. -/
def errNotExit : Option GoError → Bool
  | none => false
  | some e => !isExitSuccess e

/-! ## Command results

`commandResult` is produced by the command runner (`runCommand`), whose captured
fields the pipeline treats opaquely. Modelled from the spec: a Command Result is
the "captured standard output/error and exit status of one external process
invocation" (the `commandResult` struct itself lives outside the provided
`testing.go`). -/

/-- Modelled from the spec: `commandResult` — captured output and exit status
of one external process invocation; the orchestration code treats it opaquely. -/
structure commandResult : Type where
  output : String := ""
  exitStatus : Int := 0
deriving DecidableEq, Repr, Inhabited

/-- Embeds `coverageCommandResult` (testing.go:82-85); the Go `*commandResult`
pointer for `cover` becomes an `Option`. -/
structure coverageCommandResult : Type where
  test : commandResult
  cover : Option commandResult
deriving DecidableEq, Repr

/-! ## Directory reads and target normalization (testing.go:153-186) -/

/-- One entry returned by `os.ReadDir`: its name and whether it is a directory. -/
structure DirEntry : Type where
  name : String
  isDir : Bool
deriving DecidableEq, Repr

/-- Outcome of `os.ReadDir` on the workspace root: either a read error or the
list of entries. -/
inductive DirRead : Type
  | readErr : DirRead
  | entries : List DirEntry → DirRead
deriving DecidableEq, Repr

/-- The entry loop of `dirHasGoFiles` (testing.go:177-184): skip directories,
return true on the first name ending in ".go". -/
def hasGoEntry : List DirEntry → Bool
  | [] => false
  | e :: rest =>
    if e.isDir then hasGoEntry rest
    else if goHasSuffix e.name ".go" then true
    else hasGoEntry rest

/-- Embeds `dirHasGoFiles` (testing.go:172-186): Go's `(bool, error)` return
becomes a pair with an `Option GoError`. -/
def dirHasGoFiles : DirRead → Bool × Option GoError
  | DirRead.readErr => (false, some GoError.osErr)
  | DirRead.entries es => (hasGoEntry es, none)

/-- The body of `normalizePackageTarget` after `strings.TrimSpace` has been
applied (testing.go:155-169). -/
def normalizeTrimmedTarget (workspaceDir : String) (wsDir : DirRead)
    (target : String) : String :=
  if target = "" then "./..."
  else if workspaceDir = "" then target
  else if target = "." ∨ target = "./" then
    match dirHasGoFiles wsDir with
    | (hasGoFiles, none) => if !hasGoFiles then "./..." else target
    | (_, some _) => target
  else target

/-- Embeds `normalizePackageTarget` (testing.go:153-170). `wsDir` is the oracle
for what `os.ReadDir workspaceDir` returns. -/
def normalizePackageTarget (workspaceDir : String) (wsDir : DirRead)
    (requested : String) : String :=
  normalizeTrimmedTarget workspaceDir wsDir (goTrimSpace requested)

/-! ## The per-function coverage pipeline (testing.go:87-109)

`CoverageEnv` is the oracle for the three external effects: `os.CreateTemp`,
the `go test ... -coverprofile` command and the `go tool cover -func` command.
`CoverageTrace` records which effects actually happened and whether the
temporary profile file still exists when the function returns. -/

/-- Outcomes the environment supplies to one run of `runCoverageByFunction`. -/
structure CoverageEnv : Type where
  /-- error from `os.CreateTemp`, if any (`none` = a fresh temp file was created) -/
  tempCreateErr : Option GoError
  /-- result captured by `go test target -coverprofile tmp` -/
  testResult : commandResult
  /-- error from the test command, if any -/
  testErr : Option GoError
  /-- result captured by `go tool cover -func tmp` -/
  coverResult : commandResult
  /-- error from the report command, if any -/
  coverErr : Option GoError
deriving DecidableEq, Repr

/-- Effect trace of one run of `runCoverageByFunction`. -/
structure CoverageTrace : Type where
  /-- the `go test` invocation was attempted -/
  testAttempted : Bool
  /-- the `go tool cover -func` invocation was attempted -/
  coverAttempted : Bool
  /-- the temporary profile file exists after the function returned -/
  tempFileExists : Bool
deriving DecidableEq, Repr

/-- `os.Remove` on the temp file (its error is discarded by `defer`): after it,
the file does not exist. The argument is the existence state before removal. -/
def removeFile (_before : Bool) : Bool := false

/-- Embeds `runCoverageByFunction` (testing.go:87-109). The Go function returns
`(coverageCommandResult, error)`; the trace is added by the model. On the
successful-creation paths the temp file exists (`true`) until the deferred
`os.Remove` runs at return, which every such path applies. -/
def runCoverageByFunction (env : CoverageEnv) :
    (coverageCommandResult × Option GoError) × CoverageTrace :=
  match env.tempCreateErr with
  | some e =>
    -- os.CreateTemp failed: no file was created, no defer registered, return err
    (({ test := default, cover := none }, some e),
     { testAttempted := false, coverAttempted := false, tempFileExists := false })
  | none =>
    -- temp file exists from here on; defer os.Remove applies at every return
    let tempExists := true
    if errNotExit env.testErr then
      (({ test := env.testResult, cover := none }, env.testErr),
       { testAttempted := true, coverAttempted := false,
         tempFileExists := removeFile tempExists })
    else if errNotExit env.coverErr then
      (({ test := env.testResult, cover := none }, env.coverErr),
       { testAttempted := true, coverAttempted := true,
         tempFileExists := removeFile tempExists })
    else
      (({ test := env.testResult, cover := some env.coverResult }, none),
       { testAttempted := true, coverAttempted := true,
         tempFileExists := removeFile tempExists })

/-! ## Tool handlers (testing.go:20-80 and 111-146)

A handler's reply is either `mcp.NewToolResultErrorFromErr(msg, err)` or
`mcp.NewToolResultJSON(payload)`; the payload `map[string]any` is modelled as
an association list in insertion order (the key set is what matters). -/

/-- A value stored in a handler's JSON payload. -/
inductive PayloadValue : Type
  | str : String → PayloadValue
  | cmd : commandResult → PayloadValue
deriving DecidableEq, Repr

/-- A handler's reply: a tool-level error result or a JSON payload. -/
inductive ToolResult : Type
  | errorResult : String → GoError → ToolResult
  | json : List (String × PayloadValue) → ToolResult
deriving DecidableEq, Repr

/-- Embeds the `analyze_coverage` handler body (testing.go:31-79).
`pathArg`/`fmtArg` are the request's optional string arguments (`none` when
absent or not a string), `wsDir` the oracle for reading the workspace root,
`cov` the oracle for the per-function pipeline, and `simpleResult`/`simpleErr`
the oracle for the `go test target -cover` command of simple mode.
`mcp.NewToolResultJSON` on these payloads cannot fail (plain strings and
structs), so its error branch is not reachable and not modelled. -/
def analyzeCoverageHandler (workspaceDir : String) (wsDir : DirRead)
    (pathArg fmtArg : Option String) (cov : CoverageEnv)
    (simpleResult : commandResult) (simpleErr : Option GoError) : ToolResult :=
  let packagePath := normalizePackageTarget workspaceDir wsDir (pathArg.getD "")
  let outputFormat := if fmtArg.getD "" = "" then "summary" else fmtArg.getD ""
  let payload := [("target", PayloadValue.str packagePath),
                  ("mode", PayloadValue.str outputFormat)]
  if outputFormat = "func" then
    match (runCoverageByFunction cov).1 with
    | (_, some e) => ToolResult.errorResult "coverage analysis failed" e
    | (result, none) =>
      let payload := payload ++ [("test", PayloadValue.cmd result.test)]
      match result.cover with
      | some c => ToolResult.json (payload ++ [("cover", PayloadValue.cmd c)])
      | none => ToolResult.json payload
  else
    if errNotExit simpleErr then
      match simpleErr with
      | some e => ToolResult.errorResult "go test failed" e
      | none => ToolResult.json payload
    else
      ToolResult.json (payload ++ [("test", PayloadValue.cmd simpleResult)])

/-- Embeds the `run_go_test` handler body (testing.go:119-145). `result`/`err`
are the oracle for the `go test target` command. -/
def runGoTestHandler (workspaceDir : String) (wsDir : DirRead)
    (pathArg : Option String) (result : commandResult)
    (err : Option GoError) : ToolResult :=
  let target := normalizePackageTarget workspaceDir wsDir (pathArg.getD "./...")
  if errNotExit err then
    match err with
    | some e => ToolResult.errorResult "go test failed" e
    | none => ToolResult.json []
  else
    ToolResult.json [("target", PayloadValue.str target),
                     ("result", PayloadValue.cmd result)]

/-! ## The registered tool surface (testing.go:15-29 and 111-117) -/

/-- A registered tool: its name and its optional string parameters, in
declaration order (none of them is marked required). -/
structure ToolSpec : Type where
  name : String
  optionalStringParams : List String
deriving DecidableEq, Repr

/-- The `analyze_coverage` tool declaration (testing.go:21-29). -/
def coverageTool : ToolSpec :=
  { name := "analyze_coverage", optionalStringParams := ["path", "output_format"] }

/-- The `run_go_test` tool declaration (testing.go:112-117). -/
def runTool : ToolSpec :=
  { name := "run_go_test", optionalStringParams := ["path"] }

/-- Embeds `registerTestingTools` (testing.go:15-18): the tools it registers
on the server, in order. -/
def registerTestingTools : List ToolSpec := [coverageTool, runTool]

/-! ## Log level parsing (main.go:130-143) -/

/-- The four `slog` levels the configuration can select. -/
inductive SlogLevel : Type
  | debug : SlogLevel
  | info : SlogLevel
  | warn : SlogLevel
  | error : SlogLevel
deriving DecidableEq, Repr

/-- Embeds `parseLogLevel` (main.go:130-143): Go's `(slog.Level, error)` return
becomes a pair with an `Option String` error (on error Go returns `LevelInfo`
together with the error). -/
def parseLogLevel (level : String) : SlogLevel × Option String :=
  let l := goToLower level
  if l = "debug" then (SlogLevel.debug, none)
  else if l = "info" then (SlogLevel.info, none)
  else if l = "warn" ∨ l = "warning" then (SlogLevel.warn, none)
  else if l = "error" then (SlogLevel.error, none)
  else (SlogLevel.info, some ("unknown log level " ++ level))

/-! ## Progress notifications (notifications.go:19-40)

The progress token `mcp.ProgressToken` is an opaque non-nil value or nil:
modelled as `Option String`. The destination server pointer is modelled by a
`Bool` (`srvAvailable`). `protocol.NewProgressNotification` lives outside the
provided sources; it is modelled from the spec below, with a `constructOk`
oracle for its possible failure. `sendOk` is the oracle for the underlying
`SendNotificationToClient`; the code discards its result, so the function's
outcome must not depend on it. -/

/-- Modelled from the spec: `protocol.NewProgressNotification`
(pkg/lsp/protocol, not among the provided sources) builds the progress payload
carrying the correlation token, the progress numerator and the message text;
construction may fail, which the `constructOk` oracle decides. -/
structure ProgressPayload : Type where
  progressToken : Option String
  progress : Nat
  message : String
deriving DecidableEq, Repr

/-- Modelled from the spec: payload construction for a progress event. -/
def NewProgressNotification (constructOk : Bool) (token : Option String)
    (progress : Nat) (message : String) : Except Unit ProgressPayload :=
  if constructOk then Except.ok { progressToken := token, progress := progress, message := message }
  else Except.error ()

/-- The observable effect of `sendProgressNotification`: either nothing was
sent, or a notification with these params was handed to the server. -/
inductive SendEffect : Type
  | noSend : SendEffect
  | sent : Option String → Nat → Option String → SendEffect
deriving DecidableEq, Repr

/-- Embeds `sendProgressNotification` (notifications.go:19-40). The Go function
returns nothing; its only observable behaviour is the `SendEffect`. The send
error is discarded (the assignment to the blank identifier), so `sendOk` does
not influence the result. -/
def sendProgressNotification (srvAvailable : Bool) (token : Option String)
    (message : String) (constructOk : Bool) (sendOk : Bool) : SendEffect :=
  if srvAvailable = false ∨ token = none then SendEffect.noSend
  else
    match NewProgressNotification constructOk token 0 message with
    | Except.error _ => SendEffect.noSend
    | Except.ok payload =>
      let _ := sendOk
      SendEffect.sent payload.progressToken payload.progress
        (if payload.message = "" then none else some payload.message)

/-! ## The lifecycle controller (main.go:35-56)

`run` builds the configuration, constructs the service, registers
`defer svc.Close(context.Background())`, starts the service under a
signal-cancelled context, and returns. The oracle fields give the outcome of
each step; the trace records the `Close` invocations (with which context) and
whether the completion line was printed. -/

/-- The kind of context a `Close` call receives. -/
inductive CtxKind : Type
  | background : CtxKind
  | signalCtx : CtxKind
deriving DecidableEq, Repr

/-- Oracle for one run of the lifecycle controller. -/
structure RunEnv : Type where
  /-- error from `buildConfigFromFlags`, if any -/
  configErr : Option String
  /-- error from `newServiceFn cfg`, if any -/
  serviceErr : Option String
  /-- error returned by `svc.Start ctx`, if any -/
  startErr : Option String
deriving DecidableEq, Repr

/-- Effect trace of one run of the lifecycle controller. -/
structure RunTrace : Type where
  /-- the `Close` calls performed, each with the kind of context it received -/
  closeCalls : List CtxKind
  /-- the shutdown-complete line was printed -/
  printedCompletion : Bool
deriving DecidableEq, Repr

/-- Embeds `run` (main.go:35-56): returns the Go error (`Option String`, the
wrapped message) together with the trace. -/
def run (env : RunEnv) : Option String × RunTrace :=
  match env.configErr with
  | some e => (some e, { closeCalls := [], printedCompletion := false })
  | none =>
    match env.serviceErr with
    | some e =>
      (some ("create service: " ++ e),
       { closeCalls := [], printedCompletion := false })
    | none =>
      -- defer svc.Close(context.Background()) is registered from here on
      match env.startErr with
      | some e =>
        (some ("service error: " ++ e),
         { closeCalls := [CtxKind.background], printedCompletion := false })
      | none =>
        (none, { closeCalls := [CtxKind.background], printedCompletion := true })

/-! ## Theorems settling the claims -/

/-- C1: In the per-function coverage pipeline, once the temp profile was
created, the report command (`go tool cover -func`) is attempted iff the test
command completed (no error, or an exit-status error such as failing tests);
when the test command fails to execute at all, the pipeline returns the test
result with the error immediately and the report step is never attempted. -/
theorem coverage_report_iff_test_completed (env : CoverageEnv)
    (h : env.tempCreateErr = none) :
    ((runCoverageByFunction env).2.coverAttempted = true ↔
      (env.testErr = none ∨ ∃ e, env.testErr = some e ∧ isExitSuccess e = true))
    ∧ (∀ e, env.testErr = some e → isExitSuccess e = false →
        (runCoverageByFunction env).2.coverAttempted = false
        ∧ (runCoverageByFunction env).1
            = ({ test := env.testResult, cover := none }, some e)) := by
  rcases env with ⟨tc, tr, te, cr, ce⟩
  simp only at h
  subst h
  constructor
  · rcases te with _ | e
    · rcases ce with _ | e2
      · simp [runCoverageByFunction, errNotExit]
      · cases e2 <;> simp [runCoverageByFunction, errNotExit, isExitSuccess]
    · rcases ce with _ | e2
      · cases e <;> simp [runCoverageByFunction, errNotExit, isExitSuccess]
      · cases e <;> cases e2 <;>
          simp [runCoverageByFunction, errNotExit, isExitSuccess]
  · intro e he hex
    simp only at he
    subst he
    cases e <;> simp_all [runCoverageByFunction, errNotExit, isExitSuccess]

/-- Witness for C1: a failing-tests exit still reaches the report step; an
execution failure of the test command does not. -/
theorem coverage_report_iff_test_completed_witness :
    (runCoverageByFunction
      { tempCreateErr := none,
        testResult := { output := "FAIL", exitStatus := 1 },
        testErr := some GoError.exitErr,
        coverResult := { output := "total 80", exitStatus := 0 },
        coverErr := none }).2.coverAttempted = true
    ∧ (runCoverageByFunction
      { tempCreateErr := none,
        testResult := { output := "", exitStatus := 0 },
        testErr := some GoError.execErr,
        coverResult := { output := "", exitStatus := 0 },
        coverErr := none }).2.coverAttempted = false :=
  ⟨(coverage_report_iff_test_completed _ rfl).1.mpr
      (Or.inr ⟨GoError.exitErr, rfl, rfl⟩),
   ((coverage_report_iff_test_completed _ rfl).2 GoError.execErr rfl rfl).1⟩

/-- C2 counterexample: when the test step completes but the report step fails
to execute, the `analyze_coverage` operation does NOT return the test-step
result: the handler returns a tool-level error result (which carries only the
error), even though the pipeline function did hand it the test result. -/
theorem analyze_partial_drops_test_result :
    analyzeCoverageHandler "" DirRead.readErr none (some "func")
      { tempCreateErr := none, testResult := { output := "ok", exitStatus := 0 },
        testErr := none, coverResult := { output := "", exitStatus := 0 },
        coverErr := some GoError.execErr }
      { output := "", exitStatus := 0 } none
      = ToolResult.errorResult "coverage analysis failed" GoError.execErr
    ∧ (runCoverageByFunction
        { tempCreateErr := none, testResult := { output := "ok", exitStatus := 0 },
          testErr := none, coverResult := { output := "", exitStatus := 0 },
          coverErr := some GoError.execErr }).1
      = ({ test := { output := "ok", exitStatus := 0 }, cover := none },
         some GoError.execErr) := by decide

/-- C2 (amended): when the test step completes but the report step fails to
execute, the pipeline function returns the test-step result without a report
together with the report-step error, and the `analyze_coverage` handler
surfaces that error to the caller as a tool-level error result (the test-step
result is not part of the handler's reply). -/
theorem coverage_partial_outcome (ws : String) (d : DirRead)
    (pathArg : Option String) (cov : CoverageEnv) (simpleRes : commandResult)
    (simpleErr : Option GoError) (e : GoError)
    (h1 : cov.tempCreateErr = none) (h2 : errNotExit cov.testErr = false)
    (h3 : cov.coverErr = some e) (h4 : isExitSuccess e = false) :
    (runCoverageByFunction cov).1
      = ({ test := cov.testResult, cover := none }, some e)
    ∧ analyzeCoverageHandler ws d pathArg (some "func") cov simpleRes simpleErr
      = ToolResult.errorResult "coverage analysis failed" e := by
  have hrun : (runCoverageByFunction cov).1
      = ({ test := cov.testResult, cover := none }, some e) := by
    unfold runCoverageByFunction
    rw [h1, h3, h2]
    simp [errNotExit, h4]
  refine ⟨hrun, ?_⟩
  unfold analyzeCoverageHandler
  rw [hrun]
  simp

/-- Witness for C2 (amended): a successful test run followed by a report
command that cannot execute. -/
theorem coverage_partial_outcome_witness :
    (runCoverageByFunction
        { tempCreateErr := none, testResult := { output := "ok", exitStatus := 0 },
          testErr := none, coverResult := { output := "", exitStatus := 0 },
          coverErr := some GoError.execErr }).1
      = ({ test := { output := "ok", exitStatus := 0 }, cover := none },
         some GoError.execErr)
    ∧ analyzeCoverageHandler "/ws" DirRead.readErr none (some "func")
        { tempCreateErr := none, testResult := { output := "ok", exitStatus := 0 },
          testErr := none, coverResult := { output := "", exitStatus := 0 },
          coverErr := some GoError.execErr }
        { output := "", exitStatus := 0 } none
      = ToolResult.errorResult "coverage analysis failed" GoError.execErr :=
  coverage_partial_outcome "/ws" DirRead.readErr none
    { tempCreateErr := none, testResult := { output := "ok", exitStatus := 0 },
      testErr := none, coverResult := { output := "", exitStatus := 0 },
      coverErr := some GoError.execErr }
    { output := "", exitStatus := 0 } none GoError.execErr rfl rfl rfl rfl

/-- C3: the temporary coverage-profile file does not exist after the
per-function pipeline returns, on every exit path (temp-creation failure,
test-step execution error, report-step execution error, full success). -/
theorem coverage_temp_file_removed (env : CoverageEnv) :
    (runCoverageByFunction env).2.tempFileExists = false := by
  unfold runCoverageByFunction
  cases env.tempCreateErr
  · simp only [removeFile]
    (try split) <;> (try split) <;> simp
  · rfl

/-- C4: for the `run_go_test` tool and for `analyze_coverage` in simple
(summary) mode, an exit-status-only failure of the external command (e.g.
failing tests) is not surfaced as a tool-level error: the handler returns a
normal JSON result carrying the captured command result; only an error that is
not an exit-status error yields a tool-level error result. -/
theorem exit_status_not_tool_error (ws : String) (d : DirRead)
    (pathArg fmtArg : Option String) (res : commandResult) (e : GoError)
    (cov : CoverageEnv)
    (h : isExitSuccess e = true) (hf : fmtArg.getD "" ≠ "func") :
    runGoTestHandler ws d pathArg res (some e)
      = ToolResult.json
          [("target", PayloadValue.str (normalizePackageTarget ws d (pathArg.getD "./..."))),
           ("result", PayloadValue.cmd res)]
    ∧ analyzeCoverageHandler ws d pathArg fmtArg cov res (some e)
      = ToolResult.json
          [("target", PayloadValue.str (normalizePackageTarget ws d (pathArg.getD ""))),
           ("mode", PayloadValue.str (if fmtArg.getD "" = "" then "summary" else fmtArg.getD "")),
           ("test", PayloadValue.cmd res)]
    ∧ (∀ e2 res2, isExitSuccess e2 = false →
        runGoTestHandler ws d pathArg res2 (some e2)
          = ToolResult.errorResult "go test failed" e2
        ∧ analyzeCoverageHandler ws d pathArg fmtArg cov res2 (some e2)
          = ToolResult.errorResult "go test failed" e2)
    ∧ runGoTestHandler ws d pathArg res none
      = ToolResult.json
          [("target", PayloadValue.str (normalizePackageTarget ws d (pathArg.getD "./..."))),
           ("result", PayloadValue.cmd res)] := by
  have hfmt : (if fmtArg.getD "" = "" then "summary" else fmtArg.getD "") ≠ "func" := by
    by_cases hc : fmtArg.getD "" = "" <;> simp [hc, hf]
  refine ⟨?_, ?_, ?_, ?_⟩
  · simp [runGoTestHandler, errNotExit, h]
  · simp [analyzeCoverageHandler, hfmt, errNotExit, h]
  · intro e2 res2 he2
    constructor
    · simp [runGoTestHandler, errNotExit, he2]
    · simp [analyzeCoverageHandler, hfmt, errNotExit, he2]
  · simp [runGoTestHandler, errNotExit]

/-- Witness for C4: failing tests (exit-status error) yield a JSON result;
an execution failure yields a tool-level error result. -/
theorem exit_status_not_tool_error_witness :
    runGoTestHandler "/ws" DirRead.readErr none { output := "FAIL", exitStatus := 1 }
        (some GoError.exitErr)
      = ToolResult.json
          [("target", PayloadValue.str (normalizePackageTarget "/ws" DirRead.readErr "./...")),
           ("result", PayloadValue.cmd { output := "FAIL", exitStatus := 1 })]
    ∧ runGoTestHandler "/ws" DirRead.readErr none { output := "", exitStatus := 0 }
        (some GoError.execErr)
      = ToolResult.errorResult "go test failed" GoError.execErr :=
  ⟨(exit_status_not_tool_error "/ws" DirRead.readErr none none
      { output := "FAIL", exitStatus := 1 } GoError.exitErr
      { tempCreateErr := none, testResult := { output := "", exitStatus := 0 },
        testErr := none, coverResult := { output := "", exitStatus := 0 },
        coverErr := none }
      rfl (by decide)).1,
   ((exit_status_not_tool_error "/ws" DirRead.readErr none none
      { output := "FAIL", exitStatus := 1 } GoError.exitErr
      { tempCreateErr := none, testResult := { output := "", exitStatus := 0 },
        testErr := none, coverResult := { output := "", exitStatus := 0 },
        coverErr := none }
      rfl (by decide)).2.2.1 GoError.execErr { output := "", exitStatus := 0 }
      rfl).1⟩

/-- C5: with a non-empty workspace directory whose root is readable, a
requested target of "." is rewritten to "./..." when the root contains no Go
source files, and passed through unchanged when it does. -/
theorem normalize_dot_rewrite (ws : String) (es : List DirEntry) (h : ws ≠ "") :
    (hasGoEntry es = false →
      normalizePackageTarget ws (DirRead.entries es) "." = "./...")
    ∧ (hasGoEntry es = true →
      normalizePackageTarget ws (DirRead.entries es) "." = ".") := by
  have htrim : goTrimSpace "." = "." := by decide
  constructor <;> intro hg <;>
    simp [normalizePackageTarget, htrim, normalizeTrimmedTarget, dirHasGoFiles, h, hg]

/-- Witness for C5: an empty workspace root rewrites "." to "./..."; a root
holding a Go source file passes "." through. -/
theorem normalize_dot_rewrite_witness :
    normalizePackageTarget "/ws" (DirRead.entries []) "." = "./..."
    ∧ normalizePackageTarget "/ws"
        (DirRead.entries [{ name := "main.go", isDir := false }]) "." = "." :=
  ⟨(normalize_dot_rewrite "/ws" [] (by decide)).1 (by decide),
   (normalize_dot_rewrite "/ws" [{ name := "main.go", isDir := false }]
      (by decide)).2 (by decide)⟩

/-- C6: once service construction succeeded, the runner's Close is invoked
exactly once, with a background context, on both exit paths of the lifecycle
controller: when Start fails (its error is wrapped as a service error and
returned) and when Start returns normally. -/
theorem run_close_always_invoked (env : RunEnv)
    (h1 : env.configErr = none) (h2 : env.serviceErr = none) :
    (run env).2.closeCalls = [CtxKind.background]
    ∧ (∀ e, env.startErr = some e → (run env).1 = some ("service error: " ++ e))
    ∧ (env.startErr = none → (run env).1 = none) := by
  rcases env with ⟨ce, se, ste⟩
  simp only at h1 h2
  subst h1; subst h2
  cases ste <;> simp [run]

/-- Witness for C6: Close runs (with a background context) both when Start
fails and when it returns normally. -/
theorem run_close_always_invoked_witness :
    (run { configErr := none, serviceErr := none,
           startErr := some "boom" }).2.closeCalls = [CtxKind.background]
    ∧ (run { configErr := none, serviceErr := none,
             startErr := some "boom" }).1 = some ("service error: " ++ "boom")
    ∧ (run { configErr := none, serviceErr := none,
             startErr := none }).2.closeCalls = [CtxKind.background] :=
  ⟨(run_close_always_invoked
      { configErr := none, serviceErr := none, startErr := some "boom" }
      rfl rfl).1,
   (run_close_always_invoked
      { configErr := none, serviceErr := none, startErr := some "boom" }
      rfl rfl).2.1 "boom" rfl,
   (run_close_always_invoked
      { configErr := none, serviceErr := none, startErr := none }
      rfl rfl).1⟩

/-- C7: the notifier sends nothing when the token is absent or the server is
unavailable; when it sends, the event carries the correlation token, progress
numerator 0, and the message only when non-empty; the outcome never depends on
the fate of the underlying send, and a payload-construction failure also
results in silence (the function always returns normally: it is total and has
no error channel). -/
theorem sendProgress_spec (srv : Bool) (token : Option String) (msg : String)
    (cok sok : Bool) :
    ((token = none ∨ srv = false) →
      sendProgressNotification srv token msg cok sok = SendEffect.noSend)
    ∧ (∀ pt p m, sendProgressNotification srv token msg cok sok
          = SendEffect.sent pt p m →
        pt = token ∧ p = 0 ∧ m = (if msg = "" then none else some msg))
    ∧ (∀ sok2, sendProgressNotification srv token msg cok sok
        = sendProgressNotification srv token msg cok sok2)
    ∧ (cok = false →
      sendProgressNotification srv token msg cok sok = SendEffect.noSend) := by
  cases srv <;> rcases token with _ | t <;> cases cok <;>
    simp [sendProgressNotification, NewProgressNotification]

/-- Witness for C7: a nil token sends nothing; a payload-construction failure
sends nothing. -/
theorem sendProgress_spec_witness :
    sendProgressNotification true none "hello" true true = SendEffect.noSend
    ∧ sendProgressNotification true (some "tok") "hello" false true
      = SendEffect.noSend :=
  ⟨(sendProgress_spec true none "hello" true true).1 (Or.inl rfl),
   (sendProgress_spec true (some "tok") "hello" false true).2.2.2 rfl⟩

/-- C8 counterexample: the registered tool surface is `analyze_coverage` and
`run_go_test`; no registered tool is named `run_tests`. -/
theorem testing_tools_not_run_tests :
    List.map ToolSpec.name registerTestingTools = ["analyze_coverage", "run_go_test"]
    ∧ ¬ (∃ t ∈ registerTestingTools, t.name = "run_tests") := by decide

/-- C8 (amended): exactly two operations are registered, named
`analyze_coverage` and `run_go_test`; `run_go_test` takes one optional string
parameter `path` and on completion returns a payload with exactly the fields
`target` and `result` (the captured command result). -/
theorem testing_tools_surface :
    List.map ToolSpec.name registerTestingTools = ["analyze_coverage", "run_go_test"]
    ∧ runTool.name = "run_go_test"
    ∧ runTool.optionalStringParams = ["path"]
    ∧ ∀ ws d p res, runGoTestHandler ws d p res none
        = ToolResult.json
            [("target", PayloadValue.str (normalizePackageTarget ws d (p.getD "./..."))),
             ("result", PayloadValue.cmd res)] := by
  refine ⟨by decide, by decide, by decide, ?_⟩
  intro ws d p res
  simp [runGoTestHandler, errNotExit]

/-- C9 counterexample: `parseLogLevel` accepts "warning" (mapping it to the
warn level without error), although "warning" is not among the four values
debug, info, warn, error. -/
theorem parseLogLevel_warning_accepted :
    parseLogLevel "warning" = (SlogLevel.warn, none)
    ∧ ¬ (goToLower "warning" ∈ ["debug", "info", "warn", "error"]) := by decide

/-- C9 (amended): `parseLogLevel` accepts exactly the five values debug, info,
warn, warning, error, matched case-insensitively, mapping each to the
corresponding level ("warning" is an alias of warn); every other input is
rejected with an error. -/
theorem parseLogLevel_spec (s : String) :
    ((parseLogLevel s).2 = none ↔
      goToLower s ∈ ["debug", "info", "warn", "warning", "error"])
    ∧ (goToLower s = "debug" → parseLogLevel s = (SlogLevel.debug, none))
    ∧ (goToLower s = "info" → parseLogLevel s = (SlogLevel.info, none))
    ∧ (goToLower s = "warn" ∨ goToLower s = "warning" →
        parseLogLevel s = (SlogLevel.warn, none))
    ∧ (goToLower s = "error" → parseLogLevel s = (SlogLevel.error, none))
    ∧ (goToLower s ∉ ["debug", "info", "warn", "warning", "error"] →
        (parseLogLevel s).2 = some ("unknown log level " ++ s)) := by
  simp only [parseLogLevel]
  split_ifs with hd hi hw he <;> (try rcases hw with hw | hw) <;> simp_all +decide

/-- Witness for C9 (amended): matching is case-insensitive and unknown values
are rejected. -/
theorem parseLogLevel_spec_witness :
    parseLogLevel "WARNING" = (SlogLevel.warn, none)
    ∧ parseLogLevel "Debug" = (SlogLevel.debug, none)
    ∧ (parseLogLevel "verbose").2 = some ("unknown log level " ++ "verbose") :=
  ⟨(parseLogLevel_spec "WARNING").2.2.2.1 (Or.inr (by decide)),
   (parseLogLevel_spec "Debug").2.1 (by decide),
   (parseLogLevel_spec "verbose").2.2.2.2.2 (by decide)⟩

/-- C10: `normalizePackageTarget` is total and deterministic (a pure Lean
function); it first trims the requested target; a trimmed-empty target yields
"./..." regardless of the workspace; "./" receives the same treatment as "."
(rewritten to "./..." under exactly the same condition, otherwise passed
through); and with an empty workspace-directory string or an unreadable
workspace directory the trimmed target is returned unchanged, the
directory-read error being swallowed (the return type carries no error). -/
theorem normalize_total_properties (ws : String) (d : DirRead) (r : String) :
    normalizePackageTarget ws d r = normalizeTrimmedTarget ws d (goTrimSpace r)
    ∧ (goTrimSpace r = "" → normalizePackageTarget ws d r = "./...")
    ∧ normalizePackageTarget ws d "./" =
        (if normalizePackageTarget ws d "." = "./..." then "./..." else "./")
    ∧ (goTrimSpace r ≠ "" → normalizePackageTarget "" d r = goTrimSpace r)
    ∧ (goTrimSpace r ≠ "" →
        normalizePackageTarget ws DirRead.readErr r = goTrimSpace r) := by
  refine ⟨rfl, ?_, ?_, ?_, ?_⟩
  · intro hr
    simp [normalizePackageTarget, hr, normalizeTrimmedTarget]
  · have hs1 : goTrimSpace "./" = "./" := by decide
    have hs2 : goTrimSpace "." = "." := by decide
    by_cases hws : ws = ""
    · subst hws
      simp [normalizePackageTarget, hs1, hs2, normalizeTrimmedTarget]
    · cases d with
      | readErr =>
        simp [normalizePackageTarget, hs1, hs2, normalizeTrimmedTarget,
          dirHasGoFiles, hws]
      | entries es =>
        by_cases hg : hasGoEntry es
        · simp [normalizePackageTarget, hs1, hs2, normalizeTrimmedTarget,
            dirHasGoFiles, hws, hg]
        · simp [normalizePackageTarget, hs1, hs2, normalizeTrimmedTarget,
            dirHasGoFiles, hws, hg]
  · intro hr
    simp [normalizePackageTarget, normalizeTrimmedTarget, hr]
  · intro hr
    by_cases hws : ws = ""
    · subst hws
      simp [normalizePackageTarget, normalizeTrimmedTarget, hr]
    · simp [normalizePackageTarget, normalizeTrimmedTarget, hr, hws, dirHasGoFiles]

/-- Witness for C10: whitespace-only targets become "./..."; with an empty
workspace string or an unreadable workspace root, the trimmed target passes
through unchanged. -/
theorem normalize_total_properties_witness :
    normalizePackageTarget "/ws" DirRead.readErr "   " = "./..."
    ∧ normalizePackageTarget "" (DirRead.entries []) " pkg " = "pkg"
    ∧ normalizePackageTarget "/ws" DirRead.readErr " . " = "." :=
  ⟨(normalize_total_properties "/ws" DirRead.readErr "   ").2.1 (by decide),
   ((normalize_total_properties "" (DirRead.entries []) " pkg ").2.2.2.1
      (by decide)).trans (by decide),
   ((normalize_total_properties "/ws" DirRead.readErr " . ").2.2.2.2
      (by decide)).trans (by decide)⟩
